import Mathlib

/-!
Verification development for the ClawBio NutriGx pipeline and the
Bio Orchestrator routing helpers.

The three core pipeline modules (`parse_input.py`, `extract_genotypes.py`,
`score_variants.py`) are exercised by `tests/test_nutrigx.py` but their
source is not part of the checked tree; their behaviour is modelled here
from the specification (each such definition's doc comment says so).
The orchestrator's `detect_skill_from_file` and the synthetic-patient
generator's `assign_genotype` / `generate_csv` are embedded directly from
their Python source.

File contents are modelled as `Option (List String)` (`none` = the path
does not exist, `some lines` = the file's lines); the pseudo-random
generator consumed by the patient generator is modelled as an explicit
stream of draws (a rational in `[0,1)` and a shuffle bit per SNP row).
-/

namespace ClawBio

/-! ## Character-level field splitting

`splitOnChar sep cs` models Python's `str.split(sep)` for a one-character
separator: splitting the empty string yields `[""]`, adjacent separators
yield empty fields. -/

def splitOnChar (sep : Char) : List Char → List (List Char)
  | [] => [[]]
  | c :: cs =>
    match splitOnChar sep cs with
    | [] => if c = sep then [[], []] else [[c]]
    | f :: rest => if c = sep then [] :: f :: rest else (c :: f) :: rest

/-- String version of `splitOnChar`. -/
def splitS (sep : Char) (s : String) : List String :=
  (splitOnChar sep s.data).map String.mk

/-! ## Genotype validity (23andMe conventions) -/

/-- Modelled from the spec: a valid base is one of `A`, `C`, `G`, `T`. -/
def validBase (c : Char) : Bool :=
  c = 'A' || c = 'C' || c = 'G' || c = 'T'

/-- Modelled from the spec: a valid raw genotype is exactly two characters,
each in `{A,C,G,T}`. -/
def validGenotype (g : String) : Bool :=
  g.length == 2 && g.data.all validBase

/-- Modelled from the spec: the two-character no-call markers `--` and `00`. -/
def isNoCall (g : String) : Bool :=
  g == "--" || g == "00"

/-! ## Genotype File Parser (`parse_input.py`, modelled from the spec)

The module source is not in the checked tree; these definitions model
§4.1 of the spec. A `GenotypeTable` is kept as the list of (rsid,
genotype) rows inserted during the parse, in file order; `lookupTable`
returns the binding of the *last* inserted row for a key, matching
Python-dict assignment semantics (last occurrence wins). -/

/-- Lookup in a genotype table: the last inserted binding wins, as with
repeated assignment into a Python dict. -/
def lookupTable (table : List (String × String)) (k : String) : Option String :=
  (table.reverse.find? (fun p => p.1 == k)).map Prod.snd

/-- Modelled from the spec: parse one 23andMe data line. Comment lines
(leading `#`) are skipped; fields are tab-separated
`rsid, chromosome, position, genotype`; short lines are skipped; a no-call
genotype (`--`/`00`) is recorded as absent; any other genotype that is not
exactly two bases from `{A,C,G,T}` is skipped as unusable. -/
def parse23andmeLine (line : String) : Option (String × String) :=
  if line.data.head? = some '#' then none
  else
    match splitS '\t' line with
    | rsid :: _chrom :: _pos :: gt :: _ =>
      if isNoCall gt then none
      else if validGenotype gt then some (rsid, gt)
      else none
    | _ => none

/-- Modelled from the spec: parse a whole 23andMe file (given as lines). -/
def parse23andme (lines : List String) : List (String × String) :=
  lines.filterMap parse23andmeLine

/-- Modelled from the spec: the nine mandatory VCF header columns; a
usable header additionally has at least one sample column. -/
def vcfRequiredHeader : List String :=
  ["#CHROM", "POS", "ID", "REF", "ALT", "QUAL", "FILTER", "INFO", "FORMAT"]

/-- Modelled from the spec: check that a `#CHROM` header line declares the
required columns plus at least one sample column. -/
def vcfHeaderLineOk (line : String) : Bool :=
  let cols := splitS '\t' line
  vcfRequiredHeader.isPrefixOf cols && decide (cols.length ≥ 10)

/-- Decimal parse of a nonempty digit string (Python `int(...)` as used
on VCF allele indices), at character level. -/
def decToNat? (s : String) : Option Nat :=
  if s.data ≠ [] ∧ s.data.all Char.isDigit then
    some (s.data.foldl (fun n c => n * 10 + (c.toNat - '0'.toNat)) 0)
  else none

/-- Modelled from the spec: map a sample allele-index genotype field
(e.g. `0/1`) through REF/ALT to literal bases; an index outside the
declared allele set, or a result that is not two bases, fails the row. -/
def vcfGenotype (gtField refA altField : String) : Option String :=
  match splitS '/' gtField with
  | [i, j] =>
    match decToNat? i, decToNat? j with
    | some ai, some aj =>
      let alleles := refA :: splitS ',' altField
      match alleles[ai]?, alleles[aj]? with
      | some a, some b => if validGenotype (a ++ b) then some (a ++ b) else none
      | _, _ => none
    | _, _ => none
  | _ => none

/-- Modelled from the spec: parse one VCF data row (header rows yield
nothing); extraction failures skip the row, they are not fatal. -/
def parseVcfLine (line : String) : Option (String × String) :=
  if line.data.head? = some '#' then none
  else
    match splitS '\t' line with
    | _chrom :: _pos :: idv :: refA :: altF :: _qual :: _filt :: _info :: fmtF :: sampleF :: _ =>
      match (splitS ':' fmtF).findIdx? (· = "GT") with
      | none => none
      | some gi =>
        match (splitS ':' sampleF)[gi]? with
        | none => none
        | some gtField => (vcfGenotype gtField refA altF).map (fun g => (idv, g))
    | _ => none

/-- Modelled from the spec: parse a whole VCF file; without a usable
`#CHROM` header no row is usable. -/
def parseVcf (lines : List String) : List (String × String) :=
  if lines.any vcfHeaderLineOk then lines.filterMap parseVcfLine else []

/-- Error kinds surfaced by the parser, per the spec's error taxonomy. -/
inductive ParseError
  | fileNotFound
  | formatError
deriving DecidableEq

/-- Modelled from the spec: `parse_genetic_file`. The file is `none` when
the path does not exist. An unrecognized format hint, or a parse that
yields zero usable data lines, fails with a `FormatError`-kind error. -/
def parse_genetic_file (file : Option (List String)) (fmt : String) :
    Except ParseError (List (String × String)) :=
  match file with
  | none => Except.error ParseError.fileNotFound
  | some lines =>
    if fmt = "23andme" then
      let t := parse23andme lines
      if t.isEmpty then Except.error ParseError.formatError else Except.ok t
    else if fmt = "vcf" then
      let t := parseVcf lines
      if t.isEmpty then Except.error ParseError.formatError else Except.ok t
    else Except.error ParseError.formatError

/-! ## Genotype Extractor (`extract_genotypes.py`, modelled from the spec) -/

/-- Call status of one panel variant against the genotype table. -/
inductive Status
  | found
  | not_found
deriving DecidableEq

/-- Modelled from the spec: one tracked panel variant — identifier,
reference allele, risk allele, the domains it contributes to with a
per-domain weight, and a display label. -/
structure PanelEntry where
  rsid : String
  ref_allele : Char
  risk_allele : Char
  domains : List (String × ℚ)
  label : String
deriving DecidableEq

/-- Modelled from the spec: one analysis row per panel variant. -/
structure CallRecord where
  rsid : String
  genotype : Option String
  status : Status
  risk_count : Option Nat
deriving DecidableEq

/-- Modelled from the spec: number of positions of the observed genotype
whose base equals the risk allele (the genotype is compared as a
multiset of characters, so allele order cannot matter). -/
def riskCount (gt : String) (risk : Char) : Nat :=
  gt.data.countP (fun c => c == risk)

/-- Modelled from the spec: `extract_snp_genotypes` — one `CallRecord`
per `PanelEntry`, in panel declaration order; a variant absent from the
table yields `not_found` with null genotype and null risk count. -/
def extract_snp_genotypes (table : List (String × String)) (panel : List PanelEntry) :
    List CallRecord :=
  panel.map fun e =>
    match lookupTable table e.rsid with
    | none => ⟨e.rsid, none, Status.not_found, none⟩
    | some gt => ⟨e.rsid, some gt, Status.found, some (riskCount gt e.risk_allele)⟩

/-! ## Risk Scorer (`score_variants.py`, modelled from the spec) -/

/-- Qualitative risk category of a domain score. -/
inductive Category
  | Low
  | Moderate
  | Elevated
  | Unknown
deriving DecidableEq

/-- Per-domain scoring output. -/
structure DomainScore where
  score : Option ℚ
  category : Category
deriving DecidableEq

/-- Modelled from the spec: category thresholds — `score < 3.3 → Low`,
`3.3 ≤ score < 6.6 → Moderate`, `score ≥ 6.6 → Elevated`. -/
def categoryOf (s : ℚ) : Category :=
  if s < 33 / 10 then Category.Low
  else if s < 66 / 10 then Category.Moderate
  else Category.Elevated

/-- The call record for an rsid (the scorer receives calls keyed by rsid). -/
def findCall (calls : List CallRecord) (rsid : String) : Option CallRecord :=
  calls.find? (fun c => c.rsid == rsid)

/-- Modelled from the spec: the contributing set of domain `d` — each
panel entry mapped to `d`, paired with its per-domain weight, resolved to
its call record. -/
def contribsFor (calls : List CallRecord) (panel : List PanelEntry) (d : String) :
    List (CallRecord × ℚ) :=
  panel.filterMap fun e =>
    match e.domains.lookup d, findCall calls e.rsid with
    | some w, some c => some (c, w)
    | _, _ => none

/-- Modelled from the spec: score one domain. If every contributing call
is `not_found` the result is `{score: null, category: Unknown}`; otherwise
the weighted risk fraction over the found contributions only, scaled onto
`[0,10]`, with its category. -/
def scoreDomain (calls : List CallRecord) (panel : List PanelEntry) (d : String) :
    DomainScore :=
  let cs := contribsFor calls panel d
  if cs.all (fun cw => cw.1.status == Status.not_found) then
    ⟨none, Category.Unknown⟩
  else
    let num := cs.foldl
      (fun a cw =>
        if cw.1.status == Status.found then
          a + ((cw.1.risk_count.getD 0 : ℚ) / 2) * cw.2
        else a) 0
    let den := cs.foldl
      (fun a cw => if cw.1.status == Status.found then a + cw.2 else a) 0
    let s := num / den * 10
    ⟨some s, categoryOf s⟩

/-- All domains declared anywhere in the panel, in declaration order. -/
def panelDomains (panel : List PanelEntry) : List String :=
  (panel.flatMap (fun e => e.domains.map Prod.fst)).dedup

/-- Modelled from the spec: `compute_nutrient_risk_scores` — one
`DomainScore` per domain declared anywhere in the panel. -/
def compute_nutrient_risk_scores (calls : List CallRecord) (panel : List PanelEntry) :
    List (String × DomainScore) :=
  (panelDomains panel).map (fun d => (d, scoreDomain calls panel d))

/-! ## Bio Orchestrator file-type routing (`orchestrator.py`, from source)

A path is represented by its final name component, which is all that
`Path.suffix` / `Path.suffixes` depend on. `pySuffix` and `pySuffixes`
embed CPython 3.11 `pathlib`'s implementations. -/

/-- Python `str.lower` on the ASCII alphabet, applied per character. -/
def strLower (s : String) : String :=
  String.mk (s.data.map Char.toLower)

/-- CPython `PurePath.suffixes`: `[]` if the name ends in a dot
(`name.endswith('.')`, i.e. the last character is a dot), else strip
leading dots and prepend a dot to every dot-separated piece after the
first. -/
def pySuffixes (name : String) : List String :=
  if name.data.getLast? = some '.' then []
  else
    let stripped : List Char := name.data.dropWhile (fun c => c == '.')
    (((splitOnChar '.' stripped).map String.mk).tail).map (fun s => "." ++ s)

/-- CPython `PurePath.suffix`: the substring from the last dot on, when
that dot is neither the first nor the last character; else `""`. -/
def pySuffix (name : String) : String :=
  let cs := name.data
  match cs.reverse.findIdx? (fun c => c == '.') with
  | none => ""
  | some j =>
    let i := cs.length - 1 - j
    if 0 < i ∧ i < cs.length - 1 then String.mk (cs.drop i) else ""

/-- `EXTENSION_MAP` from `orchestrator.py`, in declaration order. -/
def EXTENSION_MAP : List (String × String) := [
  (".vcf", "equity-scorer"),
  (".vcf.gz", "equity-scorer"),
  (".fastq", "seq-wrangler"),
  (".fastq.gz", "seq-wrangler"),
  (".fq", "seq-wrangler"),
  (".fq.gz", "seq-wrangler"),
  (".bam", "seq-wrangler"),
  (".cram", "seq-wrangler"),
  (".pdb", "struct-predictor"),
  (".cif", "struct-predictor"),
  (".h5ad", "scrna-orchestrator"),
  (".rds", "scrna-orchestrator"),
  (".csv", "equity-scorer"),
  (".tsv", "equity-scorer")]

/-- `detect_skill_from_file` from `orchestrator.py`: look up the joined
suffixes exactly, then fall back to the lowercased final suffix. -/
def detect_skill_from_file (name : String) : Option String :=
  let sfxs := String.join (pySuffixes name)
  match EXTENSION_MAP.lookup sfxs with
  | some skill => some skill
  | none => EXTENSION_MAP.lookup (strLower (pySuffix name))

/-! ## Synthetic patient generator (`examples/generate_patient.py`, from source)

The `random.Random` instance is modelled as an explicit stream of draws:
per SNP row one rational `r` (the `rng.random()` call) and one boolean
(the outcome of `rng.shuffle` on the two-element heterozygous allele
list). Frequencies are embedded as exact rationals. -/

/-- `RISK_ALLELE_FREQS` from `generate_patient.py`. -/
def RISK_ALLELE_FREQS : List (String × ℚ) := [
  ("rs1801133", 32/100), ("rs1801131", 20/100), ("rs1805087", 17/100),
  ("rs2228570", 42/100), ("rs731236", 38/100), ("rs4588", 28/100),
  ("rs174546", 47/100), ("rs1535", 38/100), ("rs953413", 44/100),
  ("rs429358", 15/100), ("rs7412", 8/100), ("rs7501331", 24/100),
  ("rs12934922", 42/100), ("rs33972313", 5/100), ("rs1256335", 35/100),
  ("rs9939609", 43/100), ("rs7903146", 29/100), ("rs1801282", 12/100),
  ("rs662799", 9/100), ("rs762551", 31/100), ("rs4410790", 41/100),
  ("rs1229984", 5/100), ("rs671", 0), ("rs4988235", 35/100),
  ("rs4880", 47/100), ("rs1050450", 28/100), ("rs1800566", 22/100),
  ("rs4680", 49/100)]

/-- `POSITIONS` from `generate_patient.py`: rsid ↦ (chromosome, position). -/
def POSITIONS : List (String × String × String) := [
  ("rs1801133", "1", "11854476"), ("rs1801131", "1", "11856378"),
  ("rs1805087", "1", "237048500"), ("rs2228570", "12", "48272895"),
  ("rs731236", "12", "48239835"), ("rs4588", "4", "72608790"),
  ("rs174546", "11", "61327359"), ("rs1535", "11", "61311797"),
  ("rs953413", "6", "11044620"), ("rs429358", "19", "45411941"),
  ("rs7412", "19", "45412079"), ("rs7501331", "16", "81274254"),
  ("rs12934922", "16", "81271111"), ("rs33972313", "5", "110032987"),
  ("rs1256335", "1", "21882173"), ("rs9939609", "16", "53820527"),
  ("rs7903146", "10", "114758349"), ("rs1801282", "3", "12393125"),
  ("rs662799", "11", "116700773"), ("rs762551", "15", "75041917"),
  ("rs4410790", "7", "17381394"), ("rs1229984", "4", "100239319"),
  ("rs671", "12", "111803962"), ("rs4988235", "2", "136616754"),
  ("rs4880", "6", "160113872"), ("rs1050450", "3", "49394834"),
  ("rs1800566", "16", "69748869"), ("rs4680", "22", "19951271")]

/-- `REF_ALLELES` from `generate_patient.py`. -/
def REF_ALLELES : List (String × String) := [
  ("rs1801133", "C"), ("rs1801131", "A"), ("rs1805087", "A"),
  ("rs2228570", "T"), ("rs731236", "T"), ("rs4588", "C"),
  ("rs174546", "T"), ("rs1535", "G"), ("rs953413", "A"),
  ("rs429358", "T"), ("rs7412", "C"), ("rs7501331", "C"),
  ("rs12934922", "A"), ("rs33972313", "C"), ("rs1256335", "C"),
  ("rs9939609", "T"), ("rs7903146", "C"), ("rs1801282", "C"),
  ("rs662799", "T"), ("rs762551", "A"), ("rs4410790", "C"),
  ("rs1229984", "G"), ("rs671", "G"), ("rs4988235", "G"),
  ("rs4880", "T"), ("rs1050450", "C"), ("rs1800566", "C"),
  ("rs4680", "G")]

/-- `RISK_ALLELES` from `generate_patient.py`. -/
def RISK_ALLELES : List (String × String) := [
  ("rs1801133", "T"), ("rs1801131", "C"), ("rs1805087", "G"),
  ("rs2228570", "C"), ("rs731236", "C"), ("rs4588", "A"),
  ("rs174546", "C"), ("rs1535", "A"), ("rs953413", "G"),
  ("rs429358", "C"), ("rs7412", "T"), ("rs7501331", "T"),
  ("rs12934922", "T"), ("rs33972313", "T"), ("rs1256335", "T"),
  ("rs9939609", "A"), ("rs7903146", "T"), ("rs1801282", "G"),
  ("rs662799", "C"), ("rs762551", "C"), ("rs4410790", "T"),
  ("rs1229984", "A"), ("rs671", "A"), ("rs4988235", "A"),
  ("rs4880", "C"), ("rs1050450", "T"), ("rs1800566", "T"),
  ("rs4680", "A")]

/-- `assign_genotype` from `generate_patient.py`: Hardy-Weinberg draw.
`r` is the `rng.random()` value, `flip` the order chosen by
`rng.shuffle` in the heterozygous branch. -/
def assign_genotype (rsid : String) (r : ℚ) (flip : Bool) : String :=
  let q := (RISK_ALLELE_FREQS.lookup rsid).getD (30/100)
  let p := 1 - q
  let hom_ref := p * p
  let het := 2 * p * q
  let ref := (REF_ALLELES.lookup rsid).getD "A"
  let risk := (RISK_ALLELES.lookup rsid).getD "T"
  if r < hom_ref then ref ++ ref
  else if r < hom_ref + het then
    (if flip then risk ++ ref else ref ++ risk)
  else risk ++ risk

/-- One 23andMe data line as written by `generate_csv`
(`f"{rsid}\t{chrom}\t{pos}\t{genotype}"`). -/
def dataLine (rsid chrom pos gt : String) : String :=
  rsid ++ "\t" ++ chrom ++ "\t" ++ pos ++ "\t" ++ gt

/-- The header comment lines written by `generate_csv`. -/
def headerLines (today seedStr : String) : List String := [
  "# This data file generated by 23andMe at " ++ today,
  "# This file contains raw genotype data, including data that is not used in 23andMe reports.",
  "# SYNTHETIC DATA — generated by NutriGx generate_patient.py (seed=" ++ seedStr ++ ")",
  "# NOT REAL PATIENT DATA.",
  "#",
  "# rsid\tchromosome\tposition\tgenotype"]

/-- The data lines written by `generate_csv`: one per rsid of
`POSITIONS`, in order, with the row index selecting this row's random
draws. -/
def generate_csv_body (draws : Nat → ℚ × Bool) : List String :=
  POSITIONS.enum.map fun ip =>
    dataLine ip.2.1 ip.2.2.1 ip.2.2.2
      (assign_genotype ip.2.1 (draws ip.1).1 (draws ip.1).2)

/-- `generate_csv` from `generate_patient.py`: all lines of the written
file, header comments followed by the data lines. -/
def generate_csv (today seedStr : String) (draws : Nat → ℚ × Bool) : List String :=
  headerLines today seedStr ++ generate_csv_body draws

/-! ## Concrete fixtures used by the witness theorems -/

/-- Two-variant panel: `rsA` (ref `C`, risk `T`) and `rsB` (ref `G`,
risk `A`), both contributing to domain `dom` with weight 1. -/
def panelW : List PanelEntry :=
  [⟨"rsA", 'C', 'T', [("dom", 1)], "A"⟩, ⟨"rsB", 'G', 'A', [("dom", 1)], "B"⟩]

/-- Calls for `panelW`: `rsA` found heterozygous (one risk allele),
`rsB` not found. -/
def callsW : List CallRecord :=
  [⟨"rsA", some "CT", Status.found, some 1⟩, ⟨"rsB", none, Status.not_found, none⟩]

/-- Calls for `panelW` in which no contributing variant was found. -/
def callsU : List CallRecord :=
  [⟨"rsA", none, Status.not_found, none⟩, ⟨"rsB", none, Status.not_found, none⟩]

/-! ## Shared lemmas -/

theorem splitOnChar_ne_nil (sep : Char) (cs : List Char) : splitOnChar sep cs ≠ [] := by
  induction cs with
  | nil => simp [splitOnChar]
  | cons c cs ih =>
    simp only [splitOnChar]
    cases h : splitOnChar sep cs with
    | nil => exact absurd h ih
    | cons f rest => by_cases hc : c = sep <;> simp [hc]

theorem splitOnChar_of_not_mem {sep : Char} {a : List Char} (h : sep ∉ a) :
    splitOnChar sep a = [a] := by
  induction a with
  | nil => rfl
  | cons c cs ih =>
    have hc : c ≠ sep := fun hcs => h (hcs ▸ List.mem_cons_self c cs)
    have hcs : sep ∉ cs := fun hm => h (List.mem_cons_of_mem _ hm)
    simp only [splitOnChar]
    rw [ih hcs]
    simp [hc]

theorem splitOnChar_append_sep {sep : Char} {a : List Char} (b : List Char) (h : sep ∉ a) :
    splitOnChar sep (a ++ sep :: b) = a :: splitOnChar sep b := by
  induction a with
  | nil =>
    simp only [List.nil_append, splitOnChar]
    cases hb : splitOnChar sep b with
    | nil => exact absurd hb (splitOnChar_ne_nil sep b)
    | cons f rest => simp
  | cons c cs ih =>
    have hc : c ≠ sep := fun hcs => h (hcs ▸ List.mem_cons_self c cs)
    have hcs : sep ∉ cs := fun hm => h (List.mem_cons_of_mem _ hm)
    simp only [List.cons_append, splitOnChar, List.append_eq]
    rw [ih hcs]
    simp [hc]

theorem mk_data (s : String) : String.mk s.data = s := by
  cases s
  rfl

theorem lookup_mem_snd {α β : Type} [BEq α] [LawfulBEq α] {l : List (α × β)} {k : α} {v : β}
    (h : l.lookup k = some v) : v ∈ l.map Prod.snd := by
  rcases List.lookup_eq_some_iff.mp h with ⟨l1, l2, rfl, -⟩
  simp

theorem lookup_mem_pair {α β : Type} [BEq α] [LawfulBEq α] {l : List (α × β)} {k : α} {v : β}
    (h : l.lookup k = some v) : (k, v) ∈ l := by
  rcases List.lookup_eq_some_iff.mp h with ⟨l1, l2, rfl, -⟩
  simp

theorem foldl_found_sum (l : List (CallRecord × ℚ)) (f : CallRecord × ℚ → ℚ) (a : ℚ) :
    l.foldl (fun acc cw => if cw.1.status == Status.found then acc + f cw else acc) a
      = a + ((l.filter (fun cw => cw.1.status == Status.found)).map f).sum := by
  induction l generalizing a with
  | nil => simp
  | cons cw l ih =>
    rw [List.foldl_cons, List.filter_cons]
    by_cases h : (cw.1.status == Status.found) = true
    · rw [if_pos h, if_pos h, ih, List.map_cons, List.sum_cons]
      ring
    · rw [if_neg h, if_neg h, ih]

theorem mem_contribsFor {calls : List CallRecord} {panel : List PanelEntry} {d : String}
    {cw : CallRecord × ℚ} (h : cw ∈ contribsFor calls panel d) :
    ∃ e ∈ panel, e.domains.lookup d = some cw.2 ∧ findCall calls e.rsid = some cw.1 := by
  rcases List.mem_filterMap.mp h with ⟨e, he, hfe⟩
  refine ⟨e, he, ?_⟩
  cases hl : e.domains.lookup d <;> cases hf : findCall calls e.rsid <;>
      rw [hl, hf] at hfe <;> simp at hfe
  subst hfe
  exact ⟨rfl, rfl⟩

theorem categoryOf_spec (s : ℚ) :
    (categoryOf s = Category.Low ↔ s < 33 / 10)
    ∧ (categoryOf s = Category.Moderate ↔ (33 / 10 ≤ s ∧ s < 66 / 10))
    ∧ (categoryOf s = Category.Elevated ↔ 66 / 10 ≤ s) := by
  unfold categoryOf
  split_ifs with h1 h2
  · refine ⟨iff_of_true rfl h1, iff_of_false (by decide) ?_, iff_of_false (by decide) (by linarith)⟩
    rintro ⟨a, -⟩
    linarith
  · exact ⟨iff_of_false (by decide) (by linarith), iff_of_true rfl ⟨by linarith, h2⟩,
      iff_of_false (by decide) (by linarith)⟩
  · refine ⟨iff_of_false (by decide) (by linarith), iff_of_false (by decide) ?_,
      iff_of_true rfl (by linarith)⟩
    rintro ⟨-, b⟩
    linarith

theorem status_eq_found_of_ne {st : Status} (h : st ≠ Status.not_found) :
    st = Status.found := by
  cases st
  · rfl
  · exact absurd rfl h

theorem mem_compute_scores {calls : List CallRecord} {panel : List PanelEntry}
    {p : String × DomainScore} (h : p ∈ compute_nutrient_risk_scores calls panel) :
    p.2 = scoreDomain calls panel p.1 := by
  rcases List.mem_map.mp h with ⟨d, -, rfl⟩
  rfl

/-- The found-branch of `scoreDomain`, with the two accumulating folds
rewritten as sums over the found contributions. -/
theorem scoreDomain_not_all_nf {calls : List CallRecord} {panel : List PanelEntry} {d : String}
    (h : ¬ (contribsFor calls panel d).all (fun cw => cw.1.status == Status.not_found) = true) :
    scoreDomain calls panel d =
      ⟨some ((((contribsFor calls panel d).filter
            (fun cw => cw.1.status == Status.found)).map
            (fun cw => ((cw.1.risk_count.getD 0 : ℚ) / 2) * cw.2)).sum
          / (((contribsFor calls panel d).filter
            (fun cw => cw.1.status == Status.found)).map
            (fun cw => cw.2)).sum * 10),
        categoryOf ((((contribsFor calls panel d).filter
            (fun cw => cw.1.status == Status.found)).map
            (fun cw => ((cw.1.risk_count.getD 0 : ℚ) / 2) * cw.2)).sum
          / (((contribsFor calls panel d).filter
            (fun cw => cw.1.status == Status.found)).map
            (fun cw => cw.2)).sum * 10)⟩ := by
  unfold scoreDomain
  rw [if_neg h, foldl_found_sum _ _ 0, foldl_found_sum _ _ 0, zero_add, zero_add]

/-- The unknown-branch of `scoreDomain`. -/
theorem scoreDomain_all_nf {calls : List CallRecord} {panel : List PanelEntry} {d : String}
    (h : (contribsFor calls panel d).all (fun cw => cw.1.status == Status.not_found) = true) :
    scoreDomain calls panel d = ⟨none, Category.Unknown⟩ := by
  unfold scoreDomain
  rw [if_pos h]

theorem mem_scoresW :
    ("dom", scoreDomain callsW panelW "dom") ∈ compute_nutrient_risk_scores callsW panelW := by
  have h : compute_nutrient_risk_scores callsW panelW
      = [("dom", scoreDomain callsW panelW "dom")] := rfl
  rw [h]
  exact List.mem_singleton_self _

theorem mem_scoresU :
    ("dom", scoreDomain callsU panelW "dom") ∈ compute_nutrient_risk_scores callsU panelW := by
  have h : compute_nutrient_risk_scores callsU panelW
      = [("dom", scoreDomain callsU panelW "dom")] := rfl
  rw [h]
  exact List.mem_singleton_self _

/-! ## Claim theorems -/

/-- C9: `detect_skill_from_file` is total and never raises; it returns the
skill mapped by `EXTENSION_MAP` to the exact (case-sensitive) concatenation
of all of the path's suffixes when that string is a key, otherwise the
skill mapped to the lowercased final suffix, otherwise `none`; hence an
upper-case compound extension `.VCF.GZ` yields `none` while a lone
upper-case `.VCF` matches through the lowercase fallback. -/
theorem detect_skill_from_file_spec :
    (∀ name : String,
        detect_skill_from_file name =
          match EXTENSION_MAP.lookup (String.join (pySuffixes name)) with
          | some skill => some skill
          | none => EXTENSION_MAP.lookup (strLower (pySuffix name)))
    ∧ detect_skill_from_file "sample.VCF.GZ" = none
    ∧ detect_skill_from_file "sample.VCF" = some "equity-scorer"
    ∧ detect_skill_from_file "sample.vcf.gz" = some "equity-scorer" :=
  ⟨fun _ => rfl, by decide, by decide, by decide⟩

/-- C1: for a domain with at least one found contributing call, the
numeric score is the sum over found contributions of `risk_count/2`
times their weight, divided by the sum of the found contributions'
weights only, scaled linearly from `[0,1]` onto `[0,10]`; not-found
contributions enter neither sum. -/
theorem compute_scores_weighted_fraction
    (calls : List CallRecord) (panel : List PanelEntry) (d : String) (ds : DomainScore)
    (hmem : (d, ds) ∈ compute_nutrient_risk_scores calls panel)
    (cw0 : CallRecord × ℚ) (h0 : cw0 ∈ contribsFor calls panel d)
    (hf0 : cw0.1.status = Status.found) :
    ds.score = some
      ((((contribsFor calls panel d).filter
          (fun cw => cw.1.status == Status.found)).map
          (fun cw => ((cw.1.risk_count.getD 0 : ℚ) / 2) * cw.2)).sum
        / (((contribsFor calls panel d).filter
          (fun cw => cw.1.status == Status.found)).map
          (fun cw => cw.2)).sum * 10) := by
  have hds : ds = scoreDomain calls panel d := mem_compute_scores hmem
  have hnall :
      ¬ (contribsFor calls panel d).all (fun cw => cw.1.status == Status.not_found) = true := by
    intro hall
    have hcw := List.all_eq_true.mp hall cw0 h0
    rw [hf0] at hcw
    exact absurd hcw (by decide)
  rw [hds, scoreDomain_not_all_nf hnall]

/-- C1 witness: a domain with one found contribution (risk count 1,
weight 1) and one not-found contribution (weight 1) satisfies the
hypotheses, and its score both equals the weighted-fraction formula and
evaluates to exactly 5. -/
theorem compute_scores_weighted_fraction_witness :
    (("dom", scoreDomain callsW panelW "dom") ∈ compute_nutrient_risk_scores callsW panelW)
    ∧ ((⟨"rsA", some "CT", Status.found, some 1⟩, (1 : ℚ)) ∈ contribsFor callsW panelW "dom")
    ∧ (⟨"rsA", some "CT", Status.found, some 1⟩ : CallRecord).status = Status.found
    ∧ (scoreDomain callsW panelW "dom").score = some
      ((((contribsFor callsW panelW "dom").filter
          (fun cw => cw.1.status == Status.found)).map
          (fun cw => ((cw.1.risk_count.getD 0 : ℚ) / 2) * cw.2)).sum
        / (((contribsFor callsW panelW "dom").filter
          (fun cw => cw.1.status == Status.found)).map
          (fun cw => cw.2)).sum * 10)
    ∧ (scoreDomain callsW panelW "dom").score = some 5 :=
  ⟨mem_scoresW, by decide, rfl,
    compute_scores_weighted_fraction callsW panelW "dom" (scoreDomain callsW panelW "dom")
      mem_scoresW (⟨"rsA", some "CT", Status.found, some 1⟩, (1 : ℚ)) (by decide) rfl,
    by
      norm_num [scoreDomain, contribsFor, findCall, List.lookup, List.filterMap, List.foldl,
        List.all, show ¬(Status.found = Status.not_found) from by decide,
        show ¬(Status.not_found = Status.found) from by decide]⟩

/-- C2: every non-null numeric score produced by the scorer is
categorised `Low` exactly when it is below 3.3, `Moderate` exactly when
it is at least 3.3 and below 6.6, and `Elevated` exactly when it is at
least 6.6. -/
theorem compute_scores_category_thresholds
    (calls : List CallRecord) (panel : List PanelEntry) (p : String × DomainScore)
    (hmem : p ∈ compute_nutrient_risk_scores calls panel)
    (s : ℚ) (hs : p.2.score = some s) :
    (p.2.category = Category.Low ↔ s < 33 / 10)
    ∧ (p.2.category = Category.Moderate ↔ (33 / 10 ≤ s ∧ s < 66 / 10))
    ∧ (p.2.category = Category.Elevated ↔ 66 / 10 ≤ s) := by
  have hds : p.2 = scoreDomain calls panel p.1 := mem_compute_scores hmem
  by_cases hall :
      (contribsFor calls panel p.1).all (fun cw => cw.1.status == Status.not_found) = true
  · rw [hds, scoreDomain_all_nf hall] at hs
    exact absurd hs (by simp)
  · rw [hds, scoreDomain_not_all_nf hall] at hs ⊢
    obtain rfl : _ = s := Option.some.injEq _ _ ▸ hs
    exact categoryOf_spec _

/-- C2 witness: the fixture domain scores 5, which the theorem then
places strictly inside the `Moderate` band. -/
theorem compute_scores_category_thresholds_witness :
    (("dom", scoreDomain callsW panelW "dom") ∈ compute_nutrient_risk_scores callsW panelW)
    ∧ (scoreDomain callsW panelW "dom").score = some 5
    ∧ (((scoreDomain callsW panelW "dom").category = Category.Low ↔ (5 : ℚ) < 33 / 10)
      ∧ ((scoreDomain callsW panelW "dom").category = Category.Moderate ↔
          ((33 : ℚ) / 10 ≤ 5 ∧ (5 : ℚ) < 66 / 10))
      ∧ ((scoreDomain callsW panelW "dom").category = Category.Elevated ↔ (66 : ℚ) / 10 ≤ 5)) := by
  have h5 : (scoreDomain callsW panelW "dom").score = some 5 := by
    norm_num [scoreDomain, contribsFor, findCall, List.lookup, List.filterMap, List.foldl,
      List.all, show ¬(Status.found = Status.not_found) from by decide,
      show ¬(Status.not_found = Status.found) from by decide]
  exact ⟨mem_scoresW, h5,
    compute_scores_category_thresholds callsW panelW ("dom", scoreDomain callsW panelW "dom")
      mem_scoresW 5 h5⟩

/-- C5: a domain whose contributing calls are all `not_found` scores
`{score: null, category: Unknown}`, whatever the weights; and a null
score occurs only in that case, so partial data always yields a numeric
score. -/
theorem compute_scores_unknown_iff
    (calls : List CallRecord) (panel : List PanelEntry) (d : String) (ds : DomainScore)
    (hmem : (d, ds) ∈ compute_nutrient_risk_scores calls panel) :
    ((∀ cw ∈ contribsFor calls panel d, cw.1.status = Status.not_found) →
        ds = ⟨none, Category.Unknown⟩)
    ∧ (ds.score = none →
        ∀ cw ∈ contribsFor calls panel d, cw.1.status = Status.not_found) := by
  have hds : ds = scoreDomain calls panel d := mem_compute_scores hmem
  constructor
  · intro hall
    have hb : (contribsFor calls panel d).all
        (fun cw => cw.1.status == Status.not_found) = true :=
      List.all_eq_true.mpr (fun cw hcw => by rw [hall cw hcw]; rfl)
    rw [hds, scoreDomain_all_nf hb]
  · intro hnone cw hcw
    by_cases hall :
        (contribsFor calls panel d).all (fun cw => cw.1.status == Status.not_found) = true
    · have hb := List.all_eq_true.mp hall cw hcw
      simpa using hb
    · rw [hds, scoreDomain_not_all_nf hall] at hnone
      exact absurd hnone (by simp)

/-- C5 witness: with both contributing variants not found, the fixture
domain is `{score: null, category: Unknown}`. -/
theorem compute_scores_unknown_iff_witness :
    (("dom", scoreDomain callsU panelW "dom") ∈ compute_nutrient_risk_scores callsU panelW)
    ∧ (∀ cw ∈ contribsFor callsU panelW "dom", cw.1.status = Status.not_found)
    ∧ scoreDomain callsU panelW "dom" = ⟨none, Category.Unknown⟩ :=
  ⟨mem_scoresU, by decide,
    (compute_scores_unknown_iff callsU panelW "dom" (scoreDomain callsU panelW "dom")
      mem_scoresU).1 (by decide)⟩

/-- C6: under the panel invariant that all weights are positive, and
with every call's risk count at most 2, every non-null domain score lies
in the closed interval `[0, 10]`. -/
theorem compute_scores_in_range
    (calls : List CallRecord) (panel : List PanelEntry)
    (hw : ∀ e ∈ panel, ∀ dw ∈ e.domains, 0 < dw.2)
    (hc : ∀ c ∈ calls, c.risk_count.getD 0 ≤ 2)
    (p : String × DomainScore) (hmem : p ∈ compute_nutrient_risk_scores calls panel)
    (s : ℚ) (hs : p.2.score = some s) :
    0 ≤ s ∧ s ≤ 10 := by
  have hds : p.2 = scoreDomain calls panel p.1 := mem_compute_scores hmem
  by_cases hall :
      (contribsFor calls panel p.1).all (fun cw => cw.1.status == Status.not_found) = true
  · rw [hds, scoreDomain_all_nf hall] at hs
    exact absurd hs (by simp)
  · rw [hds, scoreDomain_not_all_nf hall] at hs
    obtain rfl : _ = s := Option.some.injEq _ _ ▸ hs
    set F := (contribsFor calls panel p.1).filter
      (fun cw => cw.1.status == Status.found) with hF
    have hFsub : ∀ cw ∈ F, cw ∈ contribsFor calls panel p.1 :=
      fun cw h => (List.mem_filter.mp h).1
    have hwpos : ∀ cw ∈ F, (0 : ℚ) < cw.2 := by
      intro cw hcwF
      rcases mem_contribsFor (hFsub cw hcwF) with ⟨e, he, hl, -⟩
      exact hw e he _ (lookup_mem_pair hl)
    have hrc : ∀ cw ∈ F, (cw.1.risk_count.getD 0 : ℚ) ≤ 2 := by
      intro cw hcwF
      rcases mem_contribsFor (hFsub cw hcwF) with ⟨e, -, -, hfind⟩
      have hmemc : cw.1 ∈ calls := List.mem_of_find?_eq_some hfind
      exact_mod_cast hc cw.1 hmemc
    have hne : F ≠ [] := by
      rw [List.all_eq_true] at hall
      push_neg at hall
      rcases hall with ⟨cw, hcw, hnf⟩
      have hfnd : cw.1.status = Status.found :=
        status_eq_found_of_ne (by simpa using hnf)
      have : cw ∈ F := by
        rw [hF, List.mem_filter]
        exact ⟨hcw, by rw [hfnd]; rfl⟩
      exact List.ne_nil_of_mem this
    have hnum_nonneg :
        0 ≤ (F.map (fun cw => ((cw.1.risk_count.getD 0 : ℚ) / 2) * cw.2)).sum := by
      apply List.sum_nonneg
      intro x hx
      rcases List.mem_map.mp hx with ⟨cw, hcw, rfl⟩
      have := hwpos cw hcw
      positivity
    have hden_pos : 0 < (F.map (fun cw => cw.2)).sum := by
      apply List.sum_pos
      · intro x hx
        rcases List.mem_map.mp hx with ⟨cw, hcw, rfl⟩
        exact hwpos cw hcw
      · simpa using hne
    have hnum_le :
        (F.map (fun cw => ((cw.1.risk_count.getD 0 : ℚ) / 2) * cw.2)).sum
          ≤ (F.map (fun cw => cw.2)).sum := by
      apply List.sum_le_sum
      intro cw hcw
      have h2 := hrc cw hcw
      have hwle := (hwpos cw hcw).le
      nlinarith
    constructor
    · have h01 : 0 ≤ (F.map (fun cw => ((cw.1.risk_count.getD 0 : ℚ) / 2) * cw.2)).sum
          / (F.map (fun cw => cw.2)).sum := div_nonneg hnum_nonneg hden_pos.le
      linarith
    · have h1 : (F.map (fun cw => ((cw.1.risk_count.getD 0 : ℚ) / 2) * cw.2)).sum
          / (F.map (fun cw => cw.2)).sum ≤ 1 := (div_le_one hden_pos).mpr hnum_le
      linarith

/-- C6 witness: the fixture satisfies the weight and risk-count
hypotheses, its domain scores 5, and 5 lies in `[0, 10]`. -/
theorem compute_scores_in_range_witness :
    (∀ e ∈ panelW, ∀ dw ∈ e.domains, (0 : ℚ) < dw.2)
    ∧ (∀ c ∈ callsW, c.risk_count.getD 0 ≤ 2)
    ∧ (("dom", scoreDomain callsW panelW "dom") ∈ compute_nutrient_risk_scores callsW panelW)
    ∧ (scoreDomain callsW panelW "dom").score = some 5
    ∧ ((0 : ℚ) ≤ 5 ∧ (5 : ℚ) ≤ 10) := by
  have h5 : (scoreDomain callsW panelW "dom").score = some 5 := by
    norm_num [scoreDomain, contribsFor, findCall, List.lookup, List.filterMap, List.foldl,
      List.all, show ¬(Status.found = Status.not_found) from by decide,
      show ¬(Status.not_found = Status.found) from by decide]
  exact ⟨by decide, by decide, mem_scoresW, h5,
    compute_scores_in_range callsW panelW (by decide) (by decide)
      ("dom", scoreDomain callsW panelW "dom") mem_scoresW 5 h5⟩


/-- C3: the extractor emits exactly one `CallRecord` per `PanelEntry`, in
panel declaration order (same rsid at the same index), and a variant
missing from the table yields a `not_found` record with null genotype and
null risk count, without raising. -/
theorem extract_one_record_per_entry
    (table : List (String × String)) (panel : List PanelEntry) :
    (extract_snp_genotypes table panel).length = panel.length
    ∧ (∀ (i : ℕ) (e : PanelEntry), panel[i]? = some e →
        ∃ c, (extract_snp_genotypes table panel)[i]? = some c ∧ c.rsid = e.rsid)
    ∧ (∀ (i : ℕ) (e : PanelEntry), panel[i]? = some e →
        lookupTable table e.rsid = none →
        (extract_snp_genotypes table panel)[i]? =
          some ⟨e.rsid, none, Status.not_found, none⟩) := by
  refine ⟨List.length_map _ _, ?_, ?_⟩
  · intro i e he
    unfold extract_snp_genotypes
    rw [List.getElem?_map, he, Option.map_some']
    cases hl : lookupTable table e.rsid <;> exact ⟨_, rfl, rfl⟩
  · intro i e he hl
    unfold extract_snp_genotypes
    rw [List.getElem?_map, he, Option.map_some', hl]

/-- C3 witness: with only `rsA` in the table, the two-entry fixture panel
yields two records, and the record at index 1 is the `not_found` record
for `rsB`. -/
theorem extract_one_record_per_entry_witness :
    (extract_snp_genotypes [("rsA", "CT")] panelW).length = panelW.length
    ∧ panelW[1]? = some ⟨"rsB", 'G', 'A', [("dom", 1)], "B"⟩
    ∧ lookupTable [("rsA", "CT")] "rsB" = none
    ∧ (extract_snp_genotypes [("rsA", "CT")] panelW)[1]? =
        some ⟨"rsB", none, Status.not_found, none⟩ :=
  ⟨(extract_one_record_per_entry [("rsA", "CT")] panelW).1, by decide, by decide,
    (extract_one_record_per_entry [("rsA", "CT")] panelW).2.2 1
      ⟨"rsB", 'G', 'A', [("dom", 1)], "B"⟩ (by decide) (by decide)⟩

/-- C4: for a found variant the extractor sets `risk_count` to the number
of genotype positions equal to the panel risk allele; that count is at
most 2 for a two-character genotype; and the count is invariant under
reordering of the genotype characters (multiset semantics), in particular
under swapping the two characters. -/
theorem extract_risk_count_spec :
    (∀ (table : List (String × String)) (panel : List PanelEntry) (i : ℕ)
        (e : PanelEntry) (gt : String),
        panel[i]? = some e → lookupTable table e.rsid = some gt →
        (extract_snp_genotypes table panel)[i]? =
          some ⟨e.rsid, some gt, Status.found,
            some (gt.data.countP (fun c => c == e.risk_allele))⟩)
    ∧ (∀ (gt : String) (r : Char), gt.length = 2 → riskCount gt r ≤ 2)
    ∧ (∀ (g g2 : String) (r : Char), g.data.Perm g2.data →
        riskCount g r = riskCount g2 r)
    ∧ (∀ (a b r : Char),
        riskCount (String.mk [a, b]) r = riskCount (String.mk [b, a]) r) := by
  refine ⟨?_, ?_, ?_, ?_⟩
  · intro table panel i e gt he hl
    unfold extract_snp_genotypes
    rw [List.getElem?_map, he, Option.map_some', hl]
    rfl
  · intro gt r h
    have hle : riskCount gt r ≤ gt.data.length := List.countP_le_length _
    have hlen : gt.data.length = 2 := h
    omega
  · intro g g2 r hperm
    exact hperm.countP_eq _
  · intro a b r
    exact (List.Perm.swap b a []).countP_eq _

/-- C4 witness: with raw genotype `TC` for `rsA` (risk allele `T`), the
extractor reports one risk allele, and the swapped genotype `CT` counts
identically. -/
theorem extract_risk_count_spec_witness :
    panelW[0]? = some ⟨"rsA", 'C', 'T', [("dom", 1)], "A"⟩
    ∧ lookupTable [("rsA", "TC")] "rsA" = some "TC"
    ∧ (extract_snp_genotypes [("rsA", "TC")] panelW)[0]? =
        some ⟨"rsA", some "TC", Status.found,
          some ("TC".data.countP (fun c => c == 'T'))⟩
    ∧ riskCount (String.mk ['C', 'T']) 'T' = riskCount (String.mk ['T', 'C']) 'T'
    ∧ "TC".data.countP (fun c => c == 'T') = 1 :=
  ⟨by decide, by decide,
    extract_risk_count_spec.1 [("rsA", "TC")] panelW 0
      ⟨"rsA", 'C', 'T', [("dom", 1)], "A"⟩ "TC" (by decide) (by decide),
    extract_risk_count_spec.2.2.2 'C' 'T' 'T', by decide⟩

/-- C7: `parse_genetic_file` fails with the `FileNotFoundError`-kind error
exactly when the path does not exist, fails with the `FormatError`-kind
error exactly when the format hint is neither `23andme` nor `vcf` or the
parse yields zero usable data lines, and otherwise returns the parsed
table without raising. -/
theorem parse_genetic_file_errors (file : Option (List String)) (fmt : String) :
    (parse_genetic_file file fmt = Except.error ParseError.fileNotFound ↔ file = none)
    ∧ (parse_genetic_file file fmt = Except.error ParseError.formatError ↔
        ∃ lines, file = some lines ∧
          ((fmt ≠ "23andme" ∧ fmt ≠ "vcf")
            ∨ (fmt = "23andme" ∧ parse23andme lines = [])
            ∨ (fmt = "vcf" ∧ parseVcf lines = [])))
    ∧ (∀ lines, file = some lines →
        ((fmt = "23andme" → parse23andme lines ≠ [] →
            parse_genetic_file file fmt = Except.ok (parse23andme lines))
          ∧ (fmt = "vcf" → parseVcf lines ≠ [] →
            parse_genetic_file file fmt = Except.ok (parseVcf lines)))) := by
  have hne1 : (Except.error ParseError.formatError :
      Except ParseError (List (String × String))) ≠ Except.error ParseError.fileNotFound := by
    intro h
    injection h with h2
    exact absurd h2 (by decide)
  have hne2 : ∀ t : List (String × String), (Except.ok t :
      Except ParseError (List (String × String))) ≠ Except.error ParseError.fileNotFound :=
    fun t h => Except.noConfusion h
  have hne3 : ∀ t : List (String × String), (Except.ok t :
      Except ParseError (List (String × String))) ≠ Except.error ParseError.formatError :=
    fun t h => Except.noConfusion h
  cases file with
  | none =>
    refine ⟨iff_of_true rfl rfl, iff_of_false (fun h => hne1 h.symm) ?_,
      fun lines h => absurd h (by simp)⟩
    rintro ⟨l, hl, -⟩
    exact Option.noConfusion hl
  | some lines =>
    by_cases h23 : fmt = "23andme"
    · subst h23
      by_cases hemp : parse23andme lines = []
      · have hres : parse_genetic_file (some lines) "23andme"
            = Except.error ParseError.formatError := by
          simp [parse_genetic_file, hemp]
        refine ⟨iff_of_false (fun h => hne1 (hres ▸ h)) (by simp),
          iff_of_true hres ⟨lines, rfl, Or.inr (Or.inl ⟨rfl, hemp⟩)⟩, ?_⟩
        intro l hl
        obtain rfl : lines = l := by injection hl
        exact ⟨fun _ hne => absurd hemp hne, fun hv _ => absurd hv (by decide)⟩
      · have hb : (parse23andme lines).isEmpty = false := by
          rw [Bool.eq_false_iff]
          intro hT
          exact hemp (List.isEmpty_iff.mp hT)
        have hres : parse_genetic_file (some lines) "23andme"
            = Except.ok (parse23andme lines) := by
          simp [parse_genetic_file, hb]
        refine ⟨iff_of_false (fun h => hne2 _ (hres ▸ h)) (by simp),
          iff_of_false (fun h => hne3 _ (hres ▸ h)) ?_, ?_⟩
        · rintro ⟨l, hl, hc⟩
          obtain rfl : lines = l := by injection hl
          rcases hc with ⟨hq, -⟩ | ⟨-, hE⟩ | ⟨hfv, -⟩
          · exact hq rfl
          · exact hemp hE
          · exact absurd hfv (by decide)
        · intro l hl
          obtain rfl : lines = l := by injection hl
          exact ⟨fun _ _ => hres, fun hv _ => absurd hv (by decide)⟩
    · by_cases hv : fmt = "vcf"
      · subst hv
        by_cases hemp : parseVcf lines = []
        · have hres : parse_genetic_file (some lines) "vcf"
              = Except.error ParseError.formatError := by
            simp [parse_genetic_file, hemp]
          refine ⟨iff_of_false (fun h => hne1 (hres ▸ h)) (by simp),
            iff_of_true hres ⟨lines, rfl, Or.inr (Or.inr ⟨rfl, hemp⟩)⟩, ?_⟩
          intro l hl
          obtain rfl : lines = l := by injection hl
          exact ⟨fun h _ => absurd h (by decide), fun _ hne => absurd hemp hne⟩
        · have hb : (parseVcf lines).isEmpty = false := by
            rw [Bool.eq_false_iff]
            intro hT
            exact hemp (List.isEmpty_iff.mp hT)
          have hres : parse_genetic_file (some lines) "vcf"
              = Except.ok (parseVcf lines) := by
            simp [parse_genetic_file, hb]
          refine ⟨iff_of_false (fun h => hne2 _ (hres ▸ h)) (by simp),
            iff_of_false (fun h => hne3 _ (hres ▸ h)) ?_, ?_⟩
          · rintro ⟨l, hl, hc⟩
            obtain rfl : lines = l := by injection hl
            rcases hc with ⟨-, hq⟩ | ⟨hfv, -⟩ | ⟨-, hE⟩
            · exact hq rfl
            · exact absurd hfv (by decide)
            · exact hemp hE
          · intro l hl
            obtain rfl : lines = l := by injection hl
            exact ⟨fun h _ => absurd h (by decide), fun _ _ => hres⟩
      · have hres : parse_genetic_file (some lines) fmt
            = Except.error ParseError.formatError := by
          simp [parse_genetic_file, h23, hv]
        refine ⟨iff_of_false (fun h => hne1 (hres ▸ h)) (by simp),
          iff_of_true hres ⟨lines, rfl, Or.inl ⟨h23, hv⟩⟩, ?_⟩
        intro l hl
        obtain rfl : lines = l := by injection hl
        exact ⟨fun h => absurd h h23, fun h => absurd h hv⟩

/-- C7 witness: a one-row valid 23andMe file parses to its table without
raising, and a missing path fails with the `FileNotFoundError` kind. -/
theorem parse_genetic_file_errors_witness :
    parse23andme ["rs1\t1\t100\tCT"] ≠ []
    ∧ parse_genetic_file (some ["rs1\t1\t100\tCT"]) "23andme"
        = Except.ok (parse23andme ["rs1\t1\t100\tCT"])
    ∧ parse_genetic_file none "vcf" = Except.error ParseError.fileNotFound :=
  ⟨by decide,
    ((parse_genetic_file_errors (some ["rs1\t1\t100\tCT"]) "23andme").2.2
      ["rs1\t1\t100\tCT"] rfl).1 rfl (by decide),
    (parse_genetic_file_errors none "vcf").1.mpr rfl⟩


theorem validGenotype_spec {g : String} (h : validGenotype g = true) :
    g.length = 2 ∧ ∀ c ∈ g.data, (c = 'A' ∨ c = 'C' ∨ c = 'G' ∨ c = 'T') := by
  unfold validGenotype at h
  rw [Bool.and_eq_true] at h
  obtain ⟨h1, h2⟩ := h
  refine ⟨beq_iff_eq.mp h1, ?_⟩
  intro c hc
  have hv := List.all_eq_true.mp h2 c hc
  unfold validBase at hv
  simp at hv
  tauto

theorem parse23andmeLine_valid {line : String} {p : String × String}
    (h : parse23andmeLine line = some p) : validGenotype p.2 = true := by
  unfold parse23andmeLine at h
  split at h
  · exact absurd h (by simp)
  · split at h
    · split at h
      · exact absurd h (by simp)
      · split at h
        · rename_i hval
          obtain rfl : _ = p := Option.some.inj h
          exact hval
        · exact absurd h (by simp)
    · exact absurd h (by simp)

/-- C8: a successfully parsed 23andMe table only holds genotypes of
exactly two bases from `{A,C,G,T}`; a data row whose genotype field is a
no-call marker (`--` or `00`) inserts nothing; and a later usable row for
the same rsid overrides the earlier binding (last occurrence wins). -/
theorem parse23andme_invariants :
    (∀ (lines : List String) (table : List (String × String)),
        parse_genetic_file (some lines) "23andme" = Except.ok table →
        ∀ p ∈ table, p.2.length = 2 ∧ ∀ c ∈ p.2.data,
          (c = 'A' ∨ c = 'C' ∨ c = 'G' ∨ c = 'T'))
    ∧ (∀ (line rsid chrom pos gt : String) (rest : List String),
        splitS '\t' line = rsid :: chrom :: pos :: gt :: rest →
        ¬ line.data.head? = some '#' →
        (gt = "--" ∨ gt = "00") →
        parse23andmeLine line = none)
    ∧ (∀ (lines : List String) (line k v : String),
        parse23andmeLine line = some (k, v) →
        lookupTable (parse23andme (lines ++ [line])) k = some v) := by
  refine ⟨?_, ?_, ?_⟩
  · intro lines table hok p hp
    have htab : table = parse23andme lines := by
      by_cases hemp : parse23andme lines = []
      · rw [show parse_genetic_file (some lines) "23andme"
            = Except.error ParseError.formatError from by simp [parse_genetic_file, hemp]] at hok
        exact absurd hok (fun h => Except.noConfusion h)
      · have hb : (parse23andme lines).isEmpty = false := by
          rw [Bool.eq_false_iff]
          intro hT
          exact hemp (List.isEmpty_iff.mp hT)
        rw [show parse_genetic_file (some lines) "23andme"
            = Except.ok (parse23andme lines) from by simp [parse_genetic_file, hb]] at hok
        exact (Except.ok.inj hok).symm
    subst htab
    rcases List.mem_filterMap.mp hp with ⟨line, -, hline⟩
    exact validGenotype_spec (parse23andmeLine_valid hline)
  · intro line rsid chrom pos gt rest hsplit hhead hgt
    unfold parse23andmeLine
    rw [if_neg hhead, hsplit]
    have hnc : isNoCall gt = true := by
      rcases hgt with rfl | rfl <;> decide
    simp [hnc]
  · intro lines line k v h
    unfold parse23andme lookupTable
    rw [List.filterMap_append]
    have h1 : List.filterMap parse23andmeLine [line] = [(k, v)] := by
      simp [h]
    rw [h1, List.reverse_append]
    simp

/-- C8 witness: a valid row parses into the table and its genotype obeys
the invariant, a no-call row is skipped, and of two usable rows for
`rs1` the later one wins. -/
theorem parse23andme_invariants_witness :
    parse_genetic_file (some ["rs1\t1\t100\tCT"]) "23andme" = Except.ok [("rs1", "CT")]
    ∧ (("rs1", "CT") : String × String).2.length = 2
    ∧ (∀ c ∈ (("rs1", "CT") : String × String).2.data,
        (c = 'A' ∨ c = 'C' ∨ c = 'G' ∨ c = 'T'))
    ∧ parse23andmeLine "rs2\t1\t101\t--" = none
    ∧ lookupTable (parse23andme (["rs1\t1\t100\tCT"] ++ ["rs1\t1\t100\tTT"])) "rs1"
        = some "TT" := by
  have hrow := (parse23andme_invariants.1 ["rs1\t1\t100\tCT"] [("rs1", "CT")] (by rfl)
    ("rs1", "CT") (by decide))
  exact ⟨by rfl, hrow.1, hrow.2,
    parse23andme_invariants.2.1 "rs2\t1\t101\t--" "rs2" "1" "101" "--" []
      (by decide) (by decide) (Or.inl rfl),
    parse23andme_invariants.2.2 ["rs1\t1\t100\tCT"] "rs1\t1\t100\tTT" "rs1" "TT"
      (by decide)⟩


theorem valid_ne_nocall {s : String} (h : ∀ c ∈ s.data, validBase c = true) :
    s ≠ "--" ∧ s ≠ "00" := by
  constructor <;> rintro rfl
  · exact absurd (h '-' (by decide)) (by decide)
  · exact absurd (h '0' (by decide)) (by decide)

theorem append_allele_ok {x y : String}
    (hx1 : x.length = 1) (hxv : ∀ c ∈ x.data, validBase c = true)
    (hy1 : y.length = 1) (hyv : ∀ c ∈ y.data, validBase c = true) :
    (x ++ y).length = 2
    ∧ ∀ c ∈ (x ++ y).data, (c ∈ x.data ∨ c ∈ y.data) ∧ validBase c = true := by
  refine ⟨by rw [String.length_append, hx1, hy1], ?_⟩
  intro c hc
  rw [String.data_append] at hc
  rcases List.mem_append.mp hc with h | h
  · exact ⟨Or.inl h, hxv c h⟩
  · exact ⟨Or.inr h, hyv c h⟩

theorem allele_strings_ok (rsid : String) :
    (((REF_ALLELES.lookup rsid).getD "A").length = 1
      ∧ ∀ c ∈ ((REF_ALLELES.lookup rsid).getD "A").data, validBase c = true)
    ∧ (((RISK_ALLELES.lookup rsid).getD "T").length = 1
      ∧ ∀ c ∈ ((RISK_ALLELES.lookup rsid).getD "T").data, validBase c = true) := by
  constructor
  · cases h : REF_ALLELES.lookup rsid with
    | none => exact ⟨rfl, by decide⟩
    | some v =>
      have hv := lookup_mem_snd h
      have hall : ∀ w ∈ REF_ALLELES.map Prod.snd,
          w.length = 1 ∧ ∀ c ∈ w.data, validBase c = true := by decide
      exact hall v hv
  · cases h : RISK_ALLELES.lookup rsid with
    | none => exact ⟨rfl, by decide⟩
    | some v =>
      have hv := lookup_mem_snd h
      have hall : ∀ w ∈ RISK_ALLELES.map Prod.snd,
          w.length = 1 ∧ ∀ c ∈ w.data, validBase c = true := by decide
      exact hall v hv

theorem snd_mem_of_mem_enum {α : Type} {x : ℕ × α} {l : List α} (h : x ∈ l.enum) :
    x.2 ∈ l := by
  obtain ⟨i, a⟩ := x
  rw [List.enum_eq_zip_range] at h
  exact (List.of_mem_zip h).2

/-- C10: whatever the rsid and the random draws, `assign_genotype` returns
two characters, each one of that rsid's reference or risk alleles (single
bases from `{A,C,G,T}`, defaulting to `A`/`T` for unknown rsids) and never
a no-call marker; consequently every data line `generate_csv` writes has
four tab-separated fields whose genotype field satisfies the 23andMe
parser contract (the line parses to its rsid and a valid genotype). -/
theorem generator_output_conforms :
    (∀ (rsid : String) (r : ℚ) (flip : Bool),
        (assign_genotype rsid r flip).length = 2
        ∧ (∀ c ∈ (assign_genotype rsid r flip).data,
            (c ∈ ((REF_ALLELES.lookup rsid).getD "A").data
              ∨ c ∈ ((RISK_ALLELES.lookup rsid).getD "T").data)
            ∧ validBase c = true)
        ∧ assign_genotype rsid r flip ≠ "--"
        ∧ assign_genotype rsid r flip ≠ "00")
    ∧ (∀ (today seedStr : String) (draws : ℕ → ℚ × Bool),
        generate_csv today seedStr draws
          = headerLines today seedStr ++ generate_csv_body draws)
    ∧ (∀ (draws : ℕ → ℚ × Bool) (line : String), line ∈ generate_csv_body draws →
        ∃ rsid chrom pos gt,
          splitS '\t' line = [rsid, chrom, pos, gt]
          ∧ validGenotype gt = true
          ∧ parse23andmeLine line = some (rsid, gt)) := by
  have hassign : ∀ (rsid : String) (r : ℚ) (flip : Bool),
      (assign_genotype rsid r flip).length = 2
      ∧ (∀ c ∈ (assign_genotype rsid r flip).data,
          (c ∈ ((REF_ALLELES.lookup rsid).getD "A").data
            ∨ c ∈ ((RISK_ALLELES.lookup rsid).getD "T").data)
          ∧ validBase c = true)
      ∧ assign_genotype rsid r flip ≠ "--"
      ∧ assign_genotype rsid r flip ≠ "00" := by
    intro rsid r flip
    obtain ⟨⟨hr1, hrv⟩, hk1, hkv⟩ := allele_strings_ok rsid
    have hshape : assign_genotype rsid r flip
        = (REF_ALLELES.lookup rsid).getD "A" ++ (REF_ALLELES.lookup rsid).getD "A"
      ∨ assign_genotype rsid r flip
        = (REF_ALLELES.lookup rsid).getD "A" ++ (RISK_ALLELES.lookup rsid).getD "T"
      ∨ assign_genotype rsid r flip
        = (RISK_ALLELES.lookup rsid).getD "T" ++ (REF_ALLELES.lookup rsid).getD "A"
      ∨ assign_genotype rsid r flip
        = (RISK_ALLELES.lookup rsid).getD "T" ++ (RISK_ALLELES.lookup rsid).getD "T" := by
      simp only [assign_genotype]
      split_ifs <;> simp
    set refS := (REF_ALLELES.lookup rsid).getD "A" with hrefS
    set riskS := (RISK_ALLELES.lookup rsid).getD "T" with hriskS
    have conc : ∀ (x y : String),
        x.length = 1 → (∀ c ∈ x.data, validBase c = true) →
        y.length = 1 → (∀ c ∈ y.data, validBase c = true) →
        (∀ c ∈ x.data, c ∈ refS.data ∨ c ∈ riskS.data) →
        (∀ c ∈ y.data, c ∈ refS.data ∨ c ∈ riskS.data) →
        (x ++ y).length = 2
        ∧ (∀ c ∈ (x ++ y).data, (c ∈ refS.data ∨ c ∈ riskS.data) ∧ validBase c = true)
        ∧ x ++ y ≠ "--" ∧ x ++ y ≠ "00" := by
      intro x y hx1 hxv hy1 hyv hxm hym
      obtain ⟨hL, hM⟩ := append_allele_ok hx1 hxv hy1 hyv
      have hM2 : ∀ c ∈ (x ++ y).data,
          (c ∈ refS.data ∨ c ∈ riskS.data) ∧ validBase c = true := by
        intro c hc
        obtain ⟨hor, hvb⟩ := hM c hc
        exact ⟨hor.elim (fun h => hxm c h) (fun h => hym c h), hvb⟩
      have hnc := valid_ne_nocall (fun c hc => (hM2 c hc).2)
      exact ⟨hL, hM2, hnc.1, hnc.2⟩
    rcases hshape with hg | hg | hg | hg <;> rw [hg]
    · exact conc refS refS hr1 hrv hr1 hrv (fun c h => Or.inl h) (fun c h => Or.inl h)
    · exact conc refS riskS hr1 hrv hk1 hkv (fun c h => Or.inl h) (fun c h => Or.inr h)
    · exact conc riskS refS hk1 hkv hr1 hrv (fun c h => Or.inr h) (fun c h => Or.inl h)
    · exact conc riskS riskS hk1 hkv hk1 hkv (fun c h => Or.inr h) (fun c h => Or.inr h)
  refine ⟨hassign, fun _ _ _ => rfl, ?_⟩
  intro draws line hline
  rcases List.mem_map.mp hline with ⟨ip, hip, rfl⟩
  obtain ⟨i, q⟩ := ip
  obtain ⟨rsid, chrom, pos⟩ := q
  have hqmem : (rsid, chrom, pos) ∈ POSITIONS := snd_mem_of_mem_enum hip
  have hall : ∀ q ∈ POSITIONS, ('\t' ∉ q.1.data) ∧ ('\t' ∉ q.2.1.data)
      ∧ ('\t' ∉ q.2.2.data) ∧ q.1.data.head? ≠ some '#' ∧ q.1.data ≠ [] := by decide
  obtain ⟨hrt, hct, hpt, hrh, hrne⟩ := hall _ hqmem
  obtain ⟨hglen, hgmem, hgne1, hgne2⟩ :=
    hassign rsid (draws i).1 (draws i).2
  set gt := assign_genotype rsid (draws i).1 (draws i).2 with hgtdef
  have hgv : ∀ c ∈ gt.data, validBase c = true := fun c hc => (hgmem c hc).2
  have hgt_nt : Char.ofNat 9 ∉ gt.data := by
    intro hmem
    exact absurd (hgv _ hmem) (by decide)
  have hdata : (dataLine rsid chrom pos gt).data
      = rsid.data ++ '\t' :: (chrom.data ++ '\t' :: (pos.data ++ '\t' :: gt.data)) := by
    unfold dataLine
    simp [String.data_append, show ("\t" : String).data = ['\t'] from rfl]
  have htab9 : ('\t' : Char) = Char.ofNat 9 := by decide
  have hsplit : splitS '\t' (dataLine rsid chrom pos gt) = [rsid, chrom, pos, gt] := by
    unfold splitS
    rw [hdata, splitOnChar_append_sep _ hrt, splitOnChar_append_sep _ hct,
      splitOnChar_append_sep _ hpt, splitOnChar_of_not_mem (htab9 ▸ hgt_nt)]
    simp [mk_data]
  have hvg : validGenotype gt = true := by
    unfold validGenotype
    rw [Bool.and_eq_true]
    exact ⟨beq_iff_eq.mpr hglen, List.all_eq_true.mpr hgv⟩
  have hhead : ¬ (dataLine rsid chrom pos gt).data.head? = some '#' := by
    rw [hdata]
    cases hd : rsid.data with
    | nil => exact absurd hd hrne
    | cons c0 cs0 =>
      rw [List.cons_append, List.head?_cons]
      rw [hd] at hrh
      simpa using hrh
  have hparse : parse23andmeLine (dataLine rsid chrom pos gt) = some (rsid, gt) := by
    unfold parse23andmeLine
    rw [if_neg hhead, hsplit]
    have hn1 : (gt == "--") = false := beq_eq_false_iff_ne.mpr hgne1
    have hn2 : (gt == "00") = false := beq_eq_false_iff_ne.mpr hgne2
    simp [isNoCall, hn1, hn2, hvg]
  exact ⟨rsid, chrom, pos, gt, hsplit, hvg, hparse⟩


/-- C10 witness: the first data row generated with the constant draw
stream `(1/2, false)` is among the generator's data lines and splits and
parses back per the 23andMe contract. -/
theorem generator_output_conforms_witness :
    ((0, ("rs1801133", "1", "11854476")) ∈ POSITIONS.enum)
    ∧ (dataLine "rs1801133" "1" "11854476"
        (assign_genotype "rs1801133" ((fun _ => ((1 : ℚ)/2, false)) 0).1
          ((fun _ => ((1 : ℚ)/2, false)) 0).2)
        ∈ generate_csv_body (fun _ => ((1 : ℚ)/2, false)))
    ∧ (∃ rsid chrom pos gt,
        splitS '\t' (dataLine "rs1801133" "1" "11854476"
          (assign_genotype "rs1801133" ((fun _ => ((1 : ℚ)/2, false)) 0).1
            ((fun _ => ((1 : ℚ)/2, false)) 0).2)) = [rsid, chrom, pos, gt]
        ∧ validGenotype gt = true
        ∧ parse23andmeLine (dataLine "rs1801133" "1" "11854476"
            (assign_genotype "rs1801133" ((fun _ => ((1 : ℚ)/2, false)) 0).1
              ((fun _ => ((1 : ℚ)/2, false)) 0).2)) = some (rsid, gt)) := by
  have hmem : dataLine "rs1801133" "1" "11854476"
      (assign_genotype "rs1801133" ((fun _ => ((1 : ℚ)/2, false)) 0).1
        ((fun _ => ((1 : ℚ)/2, false)) 0).2)
      ∈ generate_csv_body (fun _ => ((1 : ℚ)/2, false)) :=
    List.mem_map.mpr ⟨(0, ("rs1801133", "1", "11854476")), by decide, rfl⟩
  exact ⟨by decide, hmem,
    generator_output_conforms.2.2 (fun _ => ((1 : ℚ)/2, false)) _ hmem⟩

end ClawBio
